import Mathlib

/-!
Verification of the Result container of the repository (src/src/status-error.ts,
class Result<V, E extends Error>).

Values of the success-type parameter V are arbitrary JavaScript runtime values,
and several operations of the source branch on JavaScript truthiness of such a
value, so V is embedded as the inductive JSValue below.  The error-type
parameter E stays an abstract Lean type: the source constrains E extends Error,
so a present error is always an object and objects are always truthy, which
makes every guard on the private error field equivalent to a test that the
field is not undefined; the field is therefore embedded as Option E.

The private value field has type V | undefined in the source and a success
built from the undefined value is indistinguishable from an unset field, so the
field is embedded as a plain JSValue with JSValue.vundefined as the unset
state, exactly as in the running program.
-/

/-- A JavaScript runtime value: null, undefined, a boolean, a number, a
string, an array, or a plain object given by its own enumerable string-keyed
properties in insertion order. -/
inductive JSValue : Type
  | vnull
  | vundefined
  | vbool (b : Bool)
  | vnum (n : Int)
  | vstr (s : String)
  | varr (elems : List JSValue)
  | vobj (fields : List (String × JSValue))

/-- JavaScript truthiness: null, undefined, false, 0 and the empty string are
falsy; every other value, in particular every array and every object, is
truthy. -/
def jsTruthy : JSValue → Bool
  | .vnull => false
  | .vundefined => false
  | .vbool b => b
  | .vnum n => n != 0
  | .vstr s => s != ""
  | .varr _ => true
  | .vobj _ => true

/-- The test data === null || data === undefined of the source: strict
equality against the null and undefined literals is exactly a test of those
two value forms. -/
def jsIsNullish : JSValue → Bool
  | .vnull => true
  | .vundefined => true
  | _ => false

/-- Array.isArray(data). -/
def jsIsArray : JSValue → Bool
  | .varr _ => true
  | _ => false

/-- data.length for an array; only ever read under a jsIsArray guard. -/
def jsArrayLength : JSValue → Nat
  | .varr elems => elems.length
  | _ => 0

/-- typeof data === "object": true for null, arrays and plain objects, false
for undefined and the primitive forms. -/
def jsTypeofIsObject : JSValue → Bool
  | .vnull => true
  | .varr _ => true
  | .vobj _ => true
  | _ => false

/-- Object.keys(data): for an array, the index keys "0".."length-1"; for a
plain object, its own enumerable keys without duplicates.  The source only
evaluates this under a typeof data === "object" guard after the null check,
so the remaining forms are given the empty key list. -/
def jsObjectKeys : JSValue → List String
  | .varr elems => (List.range elems.length).map toString
  | .vobj fields => (fields.map Prod.fst).dedup
  | _ => []

/-- A minimal stand-in for a concrete error class extending Error, used to
instantiate the abstract error parameter in closed statements. -/
structure JSError where
  message : String

/-- The Result<V, E extends Error> class of src/src/status-error.ts: two
private optional fields, at most one of which is set by the public
constructors.  A freshly constructed instance has both fields undefined. -/
structure Result (E : Type) where
  _error : Option E
  _data : JSValue

/-- static failure(error): new Result with only the error field set; the data
field keeps its initial undefined value. -/
def Result.failure {E : Type} (error : E) : Result E :=
  ⟨some error, JSValue.vundefined⟩

/-- static of(value): new Result with only the data field set (possibly to the
null or undefined value itself; the constructor performs no validation). -/
def Result.of {E : Type} (value : JSValue) : Result E :=
  ⟨none, value⟩

/-- static fromNullable(data): returns the curried closure taking the error.
Three checks in source order: strict null/undefined equality, empty array,
then typeof "object" with an empty Object.keys list. -/
def Result.fromNullable {E : Type} (data : JSValue) : E → Result E := fun error =>
  if jsIsNullish data then Result.failure error
  else if jsIsArray data && (jsArrayLength data == 0) then Result.failure error
  else if jsTypeofIsObject data && ((jsObjectKeys data).length == 0) then Result.failure error
  else Result.of data

/-- get error(): returns the private error field as is; none embeds the
undefined returned on a success. -/
def Result.error {E : Type} (r : Result E) : Option E :=
  r._error

/-- get data(): returns the private data field as is; the source cast
this._data as V is an erased type assertion with no runtime effect, so on a
failure the getter yields the undefined placeholder. -/
def Result.data {E : Type} (r : Result E) : JSValue :=
  r._data

/-- apply(func): on a set error field (always truthy, E extends Error) a new
failure with the same error; otherwise a new success of func applied to the
raw data field. -/
def Result.apply {E : Type} (r : Result E) (func : JSValue → JSValue) : Result E :=
  match r._error with
  | none => Result.of (func r._data)
  | some e => Result.failure e

/-- applyOnFailure(func): transforms the error into a new failure when one is
present, otherwise repacks the data field into a new success. -/
def Result.applyOnFailure {E : Type} (r : Result E) (func : E → E) : Result E :=
  match r._error with
  | some e => Result.failure (func e)
  | none => Result.of r._data

/-- fold(onData, onError): dispatches on the error field and returns the
chosen handler output directly.  The source union return type L | R is
embedded as a single result type. -/
def Result.fold {E α : Type} (r : Result E) (onData : JSValue → α) (onError : E → α) : α :=
  match r._error with
  | none => onData r._data
  | some e => onError e

/-- failOnCondition(condition, error): propagates a present error into a new
failure, otherwise tests the condition on the data field and either fails with
the supplied error or repacks the data into a new success. -/
def Result.failOnCondition {E : Type} (r : Result E) (condition : JSValue → Bool)
    (error : E) : Result E :=
  match r._error with
  | some e0 => Result.failure e0
  | none =>
    if condition r._data then Result.failure error else Result.of r._data

/-- onFailureReturn(newValue, filter?): the optional filter parameter is an
Option; the source guard !filter tests for an undefined filter (a function
value is always truthy). -/
def Result.onFailureReturn {E : Type} (r : Result E) (newValue : JSValue)
    (filter : Option (E → Bool)) : Result E :=
  match r._error with
  | none => Result.of r._data
  | some e =>
    match filter with
    | none => Result.of newValue
    | some flt => if flt e then Result.of newValue else Result.failure e

/-!
Effect-instrumented layer.  Callback side effects are made explicit by
state passing: a callback of the source becomes a state transformer, and each
operation below is the same source code with the callback invocations
threaded through the state.  Invocation counting instantiates the state with a
natural-number counter.
-/

/-- peek(func), with the side effect of func made explicit: the source guard
if (this._data) tests JavaScript truthiness of the raw data field, invokes
func on it when truthy, and returns this. -/
def Result.peekS {E σ : Type} (r : Result E) (func : JSValue → σ → σ) (s : σ) :
    Result E × σ :=
  if jsTruthy r._data then (r, func r._data s) else (r, s)

/-- onFailurePeek(func), with the side effect of func made explicit: the
source guard if (this._error) is truthy exactly when an error is present
(E extends Error), invokes func on it, and returns this. -/
def Result.onFailurePeekS {E σ : Type} (r : Result E) (func : E → σ → σ) (s : σ) :
    Result E × σ :=
  match r._error with
  | some e => (r, func e s)
  | none => (r, s)

/-- apply(func) with the invocation of func made explicit as a state
transformer returning the transformed value. -/
def Result.applyS {E σ : Type} (r : Result E) (func : JSValue → σ → JSValue × σ)
    (s : σ) : Result E × σ :=
  match r._error with
  | none =>
    match func r._data s with
    | (t, s2) => (Result.of t, s2)
  | some e => (Result.failure e, s)

/-- failOnCondition(condition, error) with the evaluation of the condition
made explicit as a state transformer returning the boolean. -/
def Result.failOnConditionS {E σ : Type} (r : Result E)
    (condition : JSValue → σ → Bool × σ) (error : E) (s : σ) : Result E × σ :=
  match r._error with
  | some e0 => (Result.failure e0, s)
  | none =>
    match condition r._data s with
    | (b, s2) => if b then (Result.failure error, s2) else (Result.of r._data, s2)

/-!
Object-identity layer.  JavaScript distinguishes returning the receiver from
returning a fresh instance (reference equality).  Each Result instance is
paired with an allocation identifier, and every operation threads an
allocation counter from which new Result() draws the next identifier, exactly
where the source constructors allocate.  Callback side effects are not
re-tracked here; they live in the instrumented layer above.
-/

/-- A Result instance together with its allocation identity. -/
structure ResultObj (E : Type) where
  id : Nat
  val : Result E

/-- static of(value) at the identity layer: one new Result() allocation. -/
def Result.ofObj {E : Type} (value : JSValue) (ctr : Nat) : ResultObj E × Nat :=
  (⟨ctr, Result.of value⟩, ctr + 1)

/-- static failure(error) at the identity layer: one new Result() allocation. -/
def Result.failureObj {E : Type} (error : E) (ctr : Nat) : ResultObj E × Nat :=
  (⟨ctr, Result.failure error⟩, ctr + 1)

/-- apply at the identity layer: both branches return through a constructor,
hence a freshly allocated instance. -/
def Result.applyObj {E : Type} (r : ResultObj E) (func : JSValue → JSValue)
    (ctr : Nat) : ResultObj E × Nat :=
  match r.val._error with
  | none => Result.ofObj (func r.val._data) ctr
  | some e => Result.failureObj e ctr

/-- applyOnFailure at the identity layer: both branches construct. -/
def Result.applyOnFailureObj {E : Type} (r : ResultObj E) (func : E → E)
    (ctr : Nat) : ResultObj E × Nat :=
  match r.val._error with
  | some e => Result.failureObj (func e) ctr
  | none => Result.ofObj r.val._data ctr

/-- failOnCondition at the identity layer: all three branches construct. -/
def Result.failOnConditionObj {E : Type} (r : ResultObj E)
    (condition : JSValue → Bool) (error : E) (ctr : Nat) : ResultObj E × Nat :=
  match r.val._error with
  | some e0 => Result.failureObj e0 ctr
  | none =>
    if condition r.val._data then Result.failureObj error ctr
    else Result.ofObj r.val._data ctr

/-- onFailureReturn at the identity layer: all branches construct. -/
def Result.onFailureReturnObj {E : Type} (r : ResultObj E) (newValue : JSValue)
    (filter : Option (E → Bool)) (ctr : Nat) : ResultObj E × Nat :=
  match r.val._error with
  | none => Result.ofObj r.val._data ctr
  | some e =>
    match filter with
    | none => Result.ofObj newValue ctr
    | some flt =>
      if flt e then Result.ofObj newValue ctr else Result.failureObj e ctr

/-- peek at the identity layer: the source body is return this with no
new Result() call, so the receiver itself comes back and the allocation
counter does not move. -/
def Result.peekObj {E : Type} (r : ResultObj E) (_func : JSValue → Unit)
    (ctr : Nat) : ResultObj E × Nat :=
  (r, ctr)

/-- onFailurePeek at the identity layer: return this, no allocation. -/
def Result.onFailurePeekObj {E : Type} (r : ResultObj E) (_func : E → Unit)
    (ctr : Nat) : ResultObj E × Nat :=
  (r, ctr)

/-!
Specification-side definitions.
-/

/-- The spec phrase "non-primitive object" of the fromNullable failure
condition: an array or a plain object; null is a primitive there even though
typeof null is "object". -/
def jsIsNonPrimObject : JSValue → Bool
  | .varr _ => true
  | .vobj _ => true
  | _ => false

/-- The failure condition of fromNullable in the words of the specification:
data is null or undefined, or an array with zero elements, or a non-primitive
object with zero own enumerable keys.  Stated for comparison against the
source definition Result.fromNullable. -/
def specEmptyCheck (data : JSValue) : Bool :=
  jsIsNullish data
    || (jsIsArray data && (jsArrayLength data == 0))
    || (jsIsNonPrimObject data && ((jsObjectKeys data).length == 0))

/-- Modelled from the spec: section 4.2 lists an isSuccess() predicate as a
pure predicate over the tag, but no such method appears anywhere under src/;
following the words of the spec, it holds exactly when the Result is in the
Success state, i.e. carries no error. -/
def Result.isSuccess {E : Type} (r : Result E) : Bool :=
  r._error.isNone

/-- Modelled from the spec: section 4.2 lists an isFailure() predicate as a
pure predicate over the tag, but no such method appears anywhere under src/;
following the words of the spec, it holds exactly when the Result is in the
Failure state, i.e. carries an error. -/
def Result.isFailure {E : Type} (r : Result E) : Bool :=
  r._error.isSome

/-!
Theorems, one per claim.
-/

/-- C1: the claim states that peek on a Success invokes its callback exactly
once for every success value, including falsy values such as 0.  The source
guard if (this._data) is falsy at the number 0, so the callback is invoked
zero times on the Success carrying 0, while it is invoked once on the Success
carrying 42: the code contradicts the claim (and its own documentation) at the
falsy success value. -/
theorem c1_peek_skips_falsy_success_value :
    (Result.of (JSValue.vnum 0) : Result JSError).error = none
  ∧ Result.peekS (Result.of (JSValue.vnum 0) : Result JSError)
      (fun _ k => k + 1) 0 = (Result.of (JSValue.vnum 0), 0)
  ∧ Result.peekS (Result.of (JSValue.vnum 42) : Result JSError)
      (fun _ k => k + 1) 0 = (Result.of (JSValue.vnum 42), 1) :=
  ⟨rfl, rfl, rfl⟩

/-- C2: fromNullable(data)(error) yields Failure(error) exactly when data is
null or undefined, or an empty array, or a non-primitive object with zero own
enumerable keys, and otherwise yields Success wrapping data itself.  The
right-hand side condition specEmptyCheck is the claim stated in its own
words. -/
theorem c2_fromNullable_characterization {E : Type} (data : JSValue) (e : E) :
    Result.fromNullable data e
      = (if specEmptyCheck data then Result.failure e else Result.of data) := by
  cases data with
  | vnull => rfl
  | vundefined => rfl
  | vbool b => rfl
  | vnum n => rfl
  | vstr s => rfl
  | varr elems =>
    cases elems with
    | nil => rfl
    | cons x xs =>
      simp [Result.fromNullable, specEmptyCheck, jsIsNullish, jsIsArray,
        jsArrayLength, jsTypeofIsObject, jsIsNonPrimObject, jsObjectKeys]
  | vobj fields =>
    cases fields with
    | nil => rfl
    | cons p ps =>
      have hkeys : (((p :: ps).map Prod.fst).dedup).length ≠ 0 := by
        simp [List.length_eq_zero, List.dedup_eq_nil]
      simp [Result.fromNullable, specEmptyCheck, jsIsNullish, jsIsArray,
        jsArrayLength, jsTypeofIsObject, jsIsNonPrimObject, jsObjectKeys, hkeys]

/-- C3: apply on Success(v) yields Success(f(v)) and invokes f exactly once;
apply on Failure(e) yields Failure(e) with the same error and never invokes f.
The invocation counts are read off the instrumented applyS with a counting
wrapper around an arbitrary f. -/
theorem c3_apply_map_semantics {E : Type} (v : JSValue) (f : JSValue → JSValue)
    (e : E) (n : Nat) :
    (Result.of v : Result E).apply f = Result.of (f v)
  ∧ Result.applyS (Result.of v : Result E) (fun x k => (f x, k + 1)) n
      = (Result.of (f v), n + 1)
  ∧ (Result.failure e : Result E).apply f = Result.failure e
  ∧ Result.applyS (Result.failure e : Result E) (fun x k => (f x, k + 1)) n
      = (Result.failure e, n) :=
  ⟨rfl, rfl, rfl, rfl⟩

/-- C4: the tag predicates hold as the spec states them: for every v,
of(v) satisfies isSuccess with its data equal to v, and for every e,
failure(e) satisfies isFailure with its error equal to e.  isSuccess and
isFailure themselves are modelled from the spec, no such methods being
present under src/. -/
theorem c4_isSuccess_isFailure_predicates {E : Type} (v : JSValue) (e : E) :
    (Result.of v : Result E).isSuccess = true
  ∧ (Result.of v : Result E).data = v
  ∧ (Result.failure e : Result E).isFailure = true
  ∧ (Result.failure e : Result E).error = some e :=
  ⟨rfl, rfl, rfl, rfl⟩

/-- C5: onFailureReturn on a Success is a no-op preserving the value, with or
without a filter; on a Failure with no filter it yields Success(fallback)
unconditionally; on a Failure with a filter it yields Success(fallback)
exactly when the filter accepts the error and otherwise the original
Failure(e) unchanged. -/
theorem c5_onFailureReturn_recoverWith {E : Type} (v newValue : JSValue) (e : E)
    (flt : E → Bool) :
    (Result.of v : Result E).onFailureReturn newValue none = Result.of v
  ∧ (Result.of v : Result E).onFailureReturn newValue (some flt) = Result.of v
  ∧ (Result.failure e : Result E).onFailureReturn newValue none
      = Result.of newValue
  ∧ (Result.failure e : Result E).onFailureReturn newValue (some flt)
      = (if flt e then Result.of newValue else Result.failure e) :=
  ⟨rfl, rfl, rfl, rfl⟩

/-- C6: failOnCondition on a Failure propagates the existing Failure
unchanged and does not evaluate the predicate (the evaluation counter of the
instrumented version does not move); on Success(v) it evaluates the predicate
exactly once and yields Failure(error) when the predicate holds, discarding v,
and Success(v) unchanged otherwise. -/
theorem c6_failOnCondition_semantics {E : Type} (v : JSValue) (e0 e : E)
    (condition : JSValue → Bool) (n : Nat) :
    (Result.failure e0 : Result E).failOnCondition condition e = Result.failure e0
  ∧ Result.failOnConditionS (Result.failure e0 : Result E)
      (fun x k => (condition x, k + 1)) e n = (Result.failure e0, n)
  ∧ (Result.of v : Result E).failOnCondition condition e
      = (if condition v then Result.failure e else Result.of v)
  ∧ Result.failOnConditionS (Result.of v : Result E)
      (fun x k => (condition x, k + 1)) e n
      = ((if condition v then Result.failure e else Result.of v), n + 1) := by
  refine ⟨rfl, rfl, ?_, ?_⟩
  · cases h : condition v <;>
      simp [Result.failOnCondition, Result.of, h]
  · cases h : condition v <;>
      simp [Result.failOnConditionS, Result.of, h]

/-- C7: the data accessor on of(v) returns v and the error accessor returns
none (the absent indicator); the error accessor on failure(e) returns e and
the data accessor returns the undefined placeholder.  Both accessors are total
functions of the embedding, so neither can fail. -/
theorem c7_accessors_total {E : Type} (v : JSValue) (e : E) :
    (Result.of v : Result E).data = v
  ∧ (Result.of v : Result E).error = none
  ∧ (Result.failure e : Result E).error = some e
  ∧ (Result.failure e : Result E).data = JSValue.vundefined :=
  ⟨rfl, rfl, rfl, rfl⟩

/-- C9: functor composition for apply: transforming by f and then by g is the
same Result, tag and payload included, as transforming once by the
composition. -/
theorem c9_apply_composition {E : Type} (r : Result E) (f g : JSValue → JSValue) :
    (r.apply f).apply g = r.apply (fun x => g (f x)) := by
  obtain ⟨err, dat⟩ := r
  cases err <;> rfl

/-- C8: counterexample to the claim as stated.  peek is listed among the
operations said to return a freshly constructed Result rather than the
receiver itself, but the source body of peek ends in return this: on the
identity-tracked receiver with allocation id 5 and a free counter at 6, peek
returns exactly the receiver object, id 5 included, and allocates nothing. -/
theorem c8_peek_not_fresh_counterexample :
    Result.peekObj (⟨5, Result.of (JSValue.vnum 1)⟩ : ResultObj JSError)
      (fun _ => ()) 6
      = (⟨5, Result.of (JSValue.vnum 1)⟩, 6) :=
  rfl

/-- C8 amended: every Result-returning operation other than peek and
onFailurePeek (apply, applyOnFailure, failOnCondition, onFailureReturn)
returns a freshly allocated Result carrying the new allocation identifier and
whose tag and payload are those of the pure operation on the untouched
receiver value; peek and onFailurePeek instead return the receiver object
itself, unchanged, with no allocation. -/
theorem c8_freshness_amended {E : Type} (r : ResultObj E)
    (f : JSValue → JSValue) (g : E → E) (condition : JSValue → Bool) (e : E)
    (newValue : JSValue) (filter : Option (E → Bool)) (pf : JSValue → Unit)
    (qf : E → Unit) (ctr : Nat) :
    Result.applyObj r f ctr = (⟨ctr, r.val.apply f⟩, ctr + 1)
  ∧ Result.applyOnFailureObj r g ctr = (⟨ctr, r.val.applyOnFailure g⟩, ctr + 1)
  ∧ Result.failOnConditionObj r condition e ctr
      = (⟨ctr, r.val.failOnCondition condition e⟩, ctr + 1)
  ∧ Result.onFailureReturnObj r newValue filter ctr
      = (⟨ctr, r.val.onFailureReturn newValue filter⟩, ctr + 1)
  ∧ Result.peekObj r pf ctr = (r, ctr)
  ∧ Result.onFailurePeekObj r qf ctr = (r, ctr) := by
  obtain ⟨i, err, dat⟩ := r
  refine ⟨?_, ?_, ?_, ?_, rfl, rfl⟩
  · cases err <;> rfl
  · cases err <;> rfl
  · cases err with
    | none =>
      cases h : condition dat <;>
        simp [Result.failOnConditionObj, Result.failOnCondition,
          Result.ofObj, Result.failureObj, h]
    | some e0 => rfl
  · cases err with
    | none => rfl
    | some e0 =>
      cases filter with
      | none => rfl
      | some flt =>
        cases h : flt e0 <;>
          simp [Result.onFailureReturnObj, Result.onFailureReturn,
            Result.ofObj, Result.failureObj, h]

/-- C10: a Result built by of(null) or of(undefined) has an unset error field
and is treated as a Success by every operation that discriminates on the
error field: fold invokes the success handler on the null-like value, apply
invokes the transformation on it, applyOnFailure, failOnCondition and
onFailureReturn take their Success branch; only peek diverges, its truthiness
guard never invoking the callback on a null-like value. -/
theorem c10_nullish_success_semantics {E α : Type} (f : JSValue → JSValue)
    (g : E → E) (onData : JSValue → α) (onError : E → α)
    (condition : JSValue → Bool) (e : E) (newValue : JSValue)
    (filter : Option (E → Bool)) (n : Nat) :
    ((Result.of JSValue.vnull : Result E).fold onData onError
        = onData JSValue.vnull
  ∧ (Result.of JSValue.vnull : Result E).apply f = Result.of (f JSValue.vnull)
  ∧ (Result.of JSValue.vnull : Result E).applyOnFailure g
        = Result.of JSValue.vnull
  ∧ (Result.of JSValue.vnull : Result E).failOnCondition condition e
        = (if condition JSValue.vnull then Result.failure e
           else Result.of JSValue.vnull)
  ∧ (Result.of JSValue.vnull : Result E).onFailureReturn newValue filter
        = Result.of JSValue.vnull
  ∧ Result.peekS (Result.of JSValue.vnull : Result E) (fun _ k => k + 1) n
        = (Result.of JSValue.vnull, n))
  ∧ ((Result.of JSValue.vundefined : Result E).fold onData onError
        = onData JSValue.vundefined
  ∧ (Result.of JSValue.vundefined : Result E).apply f
        = Result.of (f JSValue.vundefined)
  ∧ (Result.of JSValue.vundefined : Result E).applyOnFailure g
        = Result.of JSValue.vundefined
  ∧ (Result.of JSValue.vundefined : Result E).failOnCondition condition e
        = (if condition JSValue.vundefined then Result.failure e
           else Result.of JSValue.vundefined)
  ∧ (Result.of JSValue.vundefined : Result E).onFailureReturn newValue filter
        = Result.of JSValue.vundefined
  ∧ Result.peekS (Result.of JSValue.vundefined : Result E) (fun _ k => k + 1) n
        = (Result.of JSValue.vundefined, n)) := by
  refine ⟨⟨rfl, rfl, rfl, ?_, rfl, rfl⟩, ⟨rfl, rfl, rfl, ?_, rfl, rfl⟩⟩
  · cases h : condition JSValue.vnull <;>
      simp [Result.failOnCondition, Result.of, h]
  · cases h : condition JSValue.vundefined <;>
      simp [Result.failOnCondition, Result.of, h]
